import Mathlib

/-!
Shallow embedding of the arduino_valve_control repository.

The repository holds three Arduino sketches for a two-coil pneumatic valve:
  * V1 : bistable 2-position controller (first sketch in src/unnamed/part_000):
         pulse-based outputs, EEPROM persistence, EMI guard window, debounce.
  * T3 : 3-position controller with three direct-select buttons (second sketch
         in src/unnamed/part_000): level-held outputs, EEPROM persistence,
         EMI guard window, debounce.
  * CY : 3-position controller with a single cycle button
         (src/arduino/valve_controller/valve_controller.ino): level-held
         outputs with a 5 ms break-before-make delay, no persistence,
         debounce only.

Each routine of the C source is embedded as a pure function from the sketch
state (its global variables) and the sampled inputs to the new state together
with a trace of observable events: pin writes, delays, EEPROM updates and
serial output.  HIGH is modelled as true and LOW as false, both for output
pins and for digitalRead levels.  Unsigned 32-bit millis arithmetic is
modelled by usub.
-/

inductive Pin
  | solA
  | solB
  | led
deriving DecidableEq

inductive Ev
  | pinWrite (p : Pin) (v : Bool)
  | delayMs (n : Nat)
  | eepromUpdate (c : Char)
  | serialOut (s : String)
deriving DecidableEq

structure PinState where
  solA : Bool
  solB : Bool
  led : Bool
deriving DecidableEq

def allLow : PinState := ⟨false, false, false⟩

def writePin (ps : PinState) (p : Pin) (v : Bool) : PinState :=
  match p with
  | Pin.solA => { ps with solA := v }
  | Pin.solB => { ps with solB := v }
  | Pin.led => { ps with led := v }

def stepPins (ps : PinState) : Ev → PinState
  | Ev.pinWrite p v => writePin ps p v
  | _ => ps

def runPins (ps : PinState) (tr : List Ev) : PinState := tr.foldl stepPins ps

/-- A pin configuration is exclusive when the two coils are not both driven
high. -/
def exclusive (ps : PinState) : Bool := !(ps.solA && ps.solB)

/-- Every pin configuration reached while executing the trace from the given
start, the start itself included, is exclusive. -/
def allExclusive (ps : PinState) : List Ev → Bool
  | [] => exclusive ps
  | e :: tr => exclusive ps && allExclusive (stepPins ps e) tr

/-- The serial strings emitted by a trace, in order. -/
def serialOuts : List Ev → List String
  | [] => []
  | Ev.serialOut s :: tr => s :: serialOuts tr
  | _ :: tr => serialOuts tr

/-- The EEPROM update calls performed by a trace, in order. -/
def eepromWrites : List Ev → List Char
  | [] => []
  | Ev.eepromUpdate c :: tr => c :: eepromWrites tr
  | _ :: tr => eepromWrites tr

/-- Total milliseconds of delay calls in a trace. -/
def delayTime : List Ev → Nat
  | [] => 0
  | Ev.delayMs n :: tr => n + delayTime tr
  | _ :: tr => delayTime tr

/-- Milliseconds during which the selected pin is driven high while the trace
executes from the given start. -/
def highTime (sel : PinState → Bool) (ps : PinState) : List Ev → Nat
  | [] => 0
  | e :: tr =>
    (match e with
     | Ev.delayMs n => if sel ps then n else 0
     | _ => 0) + highTime sel (stepPins ps e) tr

def U32 : Nat := 4294967296

/-- Unsigned 32-bit subtraction, as computed by unsigned long arithmetic on
millis timestamps. -/
def usub (a b : Nat) : Nat := (a + (U32 - b % U32)) % U32

/-- The string printed by Serial.println of a single character. -/
def lineOf (c : Char) : String := String.mk [c, '\n']

/-- The steady pin configuration associated with a level-held state letter:
A drives coil A and the LED, B drives coil B and the LED, anything else
drives nothing. -/
def coilConfig (c : Char) : PinState :=
  if c = 'A' then ⟨true, false, true⟩
  else if c = 'B' then ⟨false, true, true⟩
  else ⟨false, false, false⟩

namespace V1

def PULSE_MS : Nat := 150
def EMI_GUARD_MS : Nat := 400
def DEBOUNCE_MS : Nat := 200

/-- Global variables of the bistable sketch, together with the EEPROM cell it
reads and writes. -/
structure State where
  currentState : Char
  btnPrev0 : Bool
  btnPrev1 : Bool
  btnLastPress0 : Nat
  btnLastPress1 : Nat
  lastChangeTime : Nat
  eeprom : Char
deriving DecidableEq

/-- Event trace of pulseValve: LED on, drive the commanded coil and release
the other, hold for PULSE_MS, then release both coils and the LED. -/
def pulseValve (pos : Char) : List Ev :=
  [Ev.pinWrite Pin.led true] ++
  (if pos = 'A' then
    [Ev.pinWrite Pin.solA true, Ev.pinWrite Pin.solB false]
   else
    [Ev.pinWrite Pin.solA false, Ev.pinWrite Pin.solB true]) ++
  [Ev.delayMs PULSE_MS, Ev.pinWrite Pin.solA false, Ev.pinWrite Pin.solB false,
   Ev.pinWrite Pin.led false]

/-- setValve of the bistable sketch: EEPROM.update when the position changes,
then assign currentState, pulse the valve, and record millis (which has
advanced by the pulse duration) in lastChangeTime. -/
def setValve (s : State) (pos : Char) (now : Nat) : State × List Ev :=
  ({ s with
      eeprom := if pos ≠ s.currentState then pos else s.eeprom,
      currentState := pos,
      lastChangeTime := now + PULSE_MS },
   (if pos ≠ s.currentState then [Ev.eepromUpdate pos] else []) ++ pulseValve pos)

/-- loadSavedState of the bistable sketch. -/
def loadSavedState (cell : Char) : Char :=
  if cell = 'A' ∨ cell = 'B' then cell else 'A'

/-- setup of the bistable sketch: restore the saved state, pulse it, print
READY.  Output pins start low after pinMode. -/
def boot (cell : Char) : State × List Ev :=
  ({ currentState := loadSavedState cell, btnPrev0 := true, btnPrev1 := true,
     btnLastPress0 := 0, btnLastPress1 := 0, lastChangeTime := 0, eeprom := cell },
   pulseValve (loadSavedState cell) ++ [Ev.serialOut "READY\n"])

def btnMsg (c : Char) : List Ev :=
  [Ev.serialOut "BTN:", Ev.serialOut (lineOf c)]

/-- Body of the checkButtons for-loop at index 0 (button A): accept the edge
when the pin reads pressed (low), was previously released (high), and more
than DEBOUNCE_MS has elapsed since this channel's last accepted press.  The
entry argument is the millis value at which setValve starts. -/
def chan0 (s : State) (now : Nat) (r0 : Bool) (entry : Nat) : State × List Ev :=
  if r0 = false ∧ s.btnPrev0 = true ∧ usub now s.btnLastPress0 > DEBOUNCE_MS then
    let q := setValve { s with btnLastPress0 := now } 'A' entry
    ({ q.1 with btnPrev0 := r0 }, q.2 ++ btnMsg q.1.currentState)
  else ({ s with btnPrev0 := r0 }, [])

/-- Body of the checkButtons for-loop at index 1 (button B). -/
def chan1 (s : State) (now : Nat) (r1 : Bool) (entry : Nat) : State × List Ev :=
  if r1 = false ∧ s.btnPrev1 = true ∧ usub now s.btnLastPress1 > DEBOUNCE_MS then
    let q := setValve { s with btnLastPress1 := now } 'B' entry
    ({ q.1 with btnPrev1 := r1 }, q.2 ++ btnMsg q.1.currentState)
  else ({ s with btnPrev1 := r1 }, [])

/-- checkButtons of the bistable sketch: inside the EMI guard only refresh the
stored previous levels; otherwise run the two channel bodies in index order.
The conditions of both channels read the single millis sample taken at entry;
the second channel's setValve starts later by the delay the first channel
spent pulsing. -/
def checkButtons (s : State) (now : Nat) (r0 r1 : Bool) : State × List Ev :=
  if usub now s.lastChangeTime < EMI_GUARD_MS then
    ({ s with btnPrev0 := r0, btnPrev1 := r1 }, [])
  else
    let p0 := chan0 s now r0 now
    let p1 := chan1 p0.1 now r1 (now + delayTime p0.2)
    (p1.1, p0.2 ++ p1.2)

/-- Serial part of loop in the bistable sketch.  The switch has cases for
A, B and the question mark only; any other byte falls through with no
response and no state change. -/
def serialStep (s : State) (now : Nat) (cmd : Option Char) : State × List Ev :=
  match cmd with
  | none => (s, [])
  | some c =>
    if c = 'A' ∨ c = 'B' then
      let q := setValve s c now
      (q.1, q.2 ++ [Ev.serialOut "OK:", Ev.serialOut (lineOf q.1.currentState)])
    else if c = '?' then
      (s, [Ev.serialOut "STATE:", Ev.serialOut (lineOf s.currentState)])
    else
      (s, [])

/-- One iteration of loop: checkButtons, then at most one serial byte. -/
def loopStep (s : State) (now : Nat) (r0 r1 : Bool) (cmd : Option Char) :
    State × List Ev :=
  let p := checkButtons s now r0 r1
  let q := serialStep p.1 (now + delayTime p.2) cmd
  (q.1, p.2 ++ q.2)

structure Input where
  now : Nat
  r0 : Bool
  r1 : Bool
  cmd : Option Char

def run (s : State) : List Input → State × List Ev
  | [] => (s, [])
  | i :: is =>
    let p := loopStep s i.now i.r0 i.r1 i.cmd
    let q := run p.1 is
    (q.1, p.2 ++ q.2)

end V1

namespace T3

def EMI_GUARD_MS : Nat := 400
def DEBOUNCE_MS : Nat := 200

/-- Global variables of the three-button tristate sketch, together with the
EEPROM cell it reads and writes. -/
structure State where
  currentState : Char
  btnPrev0 : Bool
  btnPrev1 : Bool
  btnPrev2 : Bool
  btnLastPress0 : Nat
  btnLastPress1 : Nat
  btnLastPress2 : Nat
  lastChangeTime : Nat
  eeprom : Char
deriving DecidableEq

/-- Event trace of applyOutputs: for A it drives coil A high, then coil B low,
then the LED high, in that order; for B symmetrically; for anything else it
releases both coils and the LED. -/
def applyOutputs (state : Char) : List Ev :=
  if state = 'A' then
    [Ev.pinWrite Pin.solA true, Ev.pinWrite Pin.solB false, Ev.pinWrite Pin.led true]
  else if state = 'B' then
    [Ev.pinWrite Pin.solA false, Ev.pinWrite Pin.solB true, Ev.pinWrite Pin.led true]
  else
    [Ev.pinWrite Pin.solA false, Ev.pinWrite Pin.solB false, Ev.pinWrite Pin.led false]

/-- setValve of the three-button sketch: EEPROM.update first when the position
changes, then assign currentState, apply the outputs, and record millis in
lastChangeTime. -/
def setValve (s : State) (pos : Char) (now : Nat) : State × List Ev :=
  ({ s with
      eeprom := if pos ≠ s.currentState then pos else s.eeprom,
      currentState := pos,
      lastChangeTime := now },
   (if pos ≠ s.currentState then [Ev.eepromUpdate pos] else []) ++ applyOutputs pos)

/-- loadSavedState of the three-button sketch. -/
def loadSavedState (cell : Char) : Char :=
  if cell = 'A' ∨ cell = 'B' ∨ cell = 'C' then cell else 'C'

/-- setup of the three-button sketch: restore the saved state, apply it, print
READY. -/
def boot (cell : Char) : State × List Ev :=
  ({ currentState := loadSavedState cell,
     btnPrev0 := true, btnPrev1 := true, btnPrev2 := true,
     btnLastPress0 := 0, btnLastPress1 := 0, btnLastPress2 := 0,
     lastChangeTime := 0, eeprom := cell },
   applyOutputs (loadSavedState cell) ++ [Ev.serialOut "READY\n"])

def btnMsg (c : Char) : List Ev :=
  [Ev.serialOut "BTN:", Ev.serialOut (lineOf c)]

/-- Body of the checkButtons for-loop at index 0 (button A): accept the edge
when the pin reads pressed (low), was previously released (high), and more
than DEBOUNCE_MS has elapsed since this channel's last accepted press. -/
def chan0 (s : State) (now : Nat) (r0 : Bool) : State × List Ev :=
  if r0 = false ∧ s.btnPrev0 = true ∧ usub now s.btnLastPress0 > DEBOUNCE_MS then
    let q := setValve { s with btnLastPress0 := now } 'A' now
    ({ q.1 with btnPrev0 := r0 }, q.2 ++ btnMsg q.1.currentState)
  else ({ s with btnPrev0 := r0 }, [])

/-- Body of the checkButtons for-loop at index 1 (button B). -/
def chan1 (s : State) (now : Nat) (r1 : Bool) : State × List Ev :=
  if r1 = false ∧ s.btnPrev1 = true ∧ usub now s.btnLastPress1 > DEBOUNCE_MS then
    let q := setValve { s with btnLastPress1 := now } 'B' now
    ({ q.1 with btnPrev1 := r1 }, q.2 ++ btnMsg q.1.currentState)
  else ({ s with btnPrev1 := r1 }, [])

/-- Body of the checkButtons for-loop at index 2 (button C). -/
def chan2 (s : State) (now : Nat) (r2 : Bool) : State × List Ev :=
  if r2 = false ∧ s.btnPrev2 = true ∧ usub now s.btnLastPress2 > DEBOUNCE_MS then
    let q := setValve { s with btnLastPress2 := now } 'C' now
    ({ q.1 with btnPrev2 := r2 }, q.2 ++ btnMsg q.1.currentState)
  else ({ s with btnPrev2 := r2 }, [])

/-- checkButtons of the three-button sketch: inside the EMI guard only refresh
the stored previous levels; otherwise run the three channel bodies in index
order, all against the single millis sample taken at entry. -/
def checkButtons (s : State) (now : Nat) (r0 r1 r2 : Bool) : State × List Ev :=
  if usub now s.lastChangeTime < EMI_GUARD_MS then
    ({ s with btnPrev0 := r0, btnPrev1 := r1, btnPrev2 := r2 }, [])
  else
    let p0 := chan0 s now r0
    let p1 := chan1 p0.1 now r1
    let p2 := chan2 p1.1 now r2
    (p2.1, p0.2 ++ p1.2 ++ p2.2)

/-- Serial part of loop in the three-button sketch.  The switch has cases for
A, B, C and the question mark only; any other byte falls through with no
response and no state change. -/
def serialStep (s : State) (now : Nat) (cmd : Option Char) : State × List Ev :=
  match cmd with
  | none => (s, [])
  | some c =>
    if c = 'A' ∨ c = 'B' ∨ c = 'C' then
      let q := setValve s c now
      (q.1, q.2 ++ [Ev.serialOut "OK:", Ev.serialOut (lineOf q.1.currentState)])
    else if c = '?' then
      (s, [Ev.serialOut "STATE:", Ev.serialOut (lineOf s.currentState)])
    else
      (s, [])

/-- One iteration of loop: checkButtons, then at most one serial byte. -/
def loopStep (s : State) (now : Nat) (r0 r1 r2 : Bool) (cmd : Option Char) :
    State × List Ev :=
  let p := checkButtons s now r0 r1 r2
  let q := serialStep p.1 now cmd
  (q.1, p.2 ++ q.2)

structure Input where
  now : Nat
  r0 : Bool
  r1 : Bool
  r2 : Bool
  cmd : Option Char

def run (s : State) : List Input → State × List Ev
  | [] => (s, [])
  | i :: is =>
    let p := loopStep s i.now i.r0 i.r1 i.r2 i.cmd
    let q := run p.1 is
    (q.1, p.2 ++ q.2)

end T3

namespace CY

def DEBOUNCE_MS : Nat := 200

/-- Global variables of the single-cycle-button sketch.  This sketch has no
EEPROM persistence and no EMI guard window. -/
structure State where
  currentState : Char
  lastBtnState : Bool
  lastBtnTime : Nat
deriving DecidableEq

/-- setValve of the cycle sketch: for A, release coil B, wait 5 ms, then drive
coil A and the LED; for B symmetrically; for C release everything.  A byte
outside the three cases changes nothing. -/
def setValve (s : State) (pos : Char) : State × List Ev :=
  if pos = 'A' then
    ({ s with currentState := 'A' },
     [Ev.pinWrite Pin.solB false, Ev.delayMs 5, Ev.pinWrite Pin.solA true,
      Ev.pinWrite Pin.led true])
  else if pos = 'B' then
    ({ s with currentState := 'B' },
     [Ev.pinWrite Pin.solA false, Ev.delayMs 5, Ev.pinWrite Pin.solB true,
      Ev.pinWrite Pin.led true])
  else if pos = 'C' then
    ({ s with currentState := 'C' },
     [Ev.pinWrite Pin.solA false, Ev.pinWrite Pin.solB false,
      Ev.pinWrite Pin.led false])
  else (s, [])

/-- nextState of the cycle sketch: C to A to B and back to C, defaulting to
C. -/
def nextState (c : Char) : Char :=
  if c = 'C' then 'A'
  else if c = 'A' then 'B'
  else if c = 'B' then 'C'
  else 'C'

/-- setup of the cycle sketch: all outputs low, print READY.  The cell
argument is the persisted EEPROM byte of the board; this sketch never reads
it, so the result does not depend on it. -/
def boot (_cell : Char) : State × List Ev :=
  ({ currentState := 'C', lastBtnState := true, lastBtnTime := 0 },
   [Ev.pinWrite Pin.solA false, Ev.pinWrite Pin.solB false,
    Ev.pinWrite Pin.led false, Ev.serialOut "READY\n"])

def btnMsg (c : Char) : List Ev :=
  [Ev.serialOut "BTN:", Ev.serialOut (lineOf c)]

/-- checkButton of the cycle sketch: accept an edge when the button reads
pressed (low), was previously released (high), and more than DEBOUNCE_MS has
elapsed since the last accepted press; there is no guard window. -/
def checkButton (s : State) (now : Nat) (reading : Bool) : State × List Ev :=
  let p :=
    if reading = false ∧ s.lastBtnState = true then
      if usub now s.lastBtnTime > DEBOUNCE_MS then
        let q := setValve { s with lastBtnTime := now } (nextState s.currentState)
        (q.1, q.2 ++ btnMsg q.1.currentState)
      else (s, ([] : List Ev))
    else (s, ([] : List Ev))
  ({ p.1 with lastBtnState := reading }, p.2)

/-- Serial part of loop in the cycle sketch.  Unlike the other two sketches
this switch has a default case that prints ERR:UNKNOWN. -/
def serialStep (s : State) (cmd : Option Char) : State × List Ev :=
  match cmd with
  | none => (s, [])
  | some c =>
    if c = 'A' ∨ c = 'B' ∨ c = 'C' then
      let q := setValve s c
      (q.1, q.2 ++ [Ev.serialOut "OK:", Ev.serialOut (lineOf q.1.currentState)])
    else if c = '?' then
      (s, [Ev.serialOut "STATE:", Ev.serialOut (lineOf s.currentState)])
    else
      (s, [Ev.serialOut "ERR:UNKNOWN\n"])

/-- One iteration of loop: checkButton, then at most one serial byte. -/
def loopStep (s : State) (now : Nat) (reading : Bool) (cmd : Option Char) :
    State × List Ev :=
  let p := checkButton s now reading
  let q := serialStep p.1 cmd
  (q.1, p.2 ++ q.2)

structure Input where
  now : Nat
  reading : Bool
  cmd : Option Char

def run (s : State) : List Input → State × List Ev
  | [] => (s, [])
  | i :: is =>
    let p := loopStep s i.now i.reading i.cmd
    let q := run p.1 is
    (q.1, p.2 ++ q.2)

end CY

/-- Modelled from the spec: the break-before-make ordering demanded by the
Output Driver contract.  The predicate scans a trace and holds when the first
energizing write of the target coil is preceded, in order, by a de-energizing
write of the opposite coil and then a settle delay.  The stage argument is 0
before the opposite coil has been released, 1 after it, 2 once a delay has
followed. -/
def specBreakBeforeMake (target opp : Pin) (stage : Nat) : List Ev → Bool
  | [] => false
  | e :: tr =>
    match e with
    | Ev.pinWrite p v =>
      if p = target ∧ v = true then stage = 2
      else if p = opp ∧ v = false then
        specBreakBeforeMake target opp (max stage 1) tr
      else specBreakBeforeMake target opp stage tr
    | Ev.delayMs _ =>
      specBreakBeforeMake target opp (if stage ≥ 1 then 2 else stage) tr
    | _ => specBreakBeforeMake target opp stage tr

/-- Modelled from the spec: a trace energizes a coil with the spec ordering
when specBreakBeforeMake accepts it from stage 0. -/
def specOrderOk (target opp : Pin) (tr : List Ev) : Bool :=
  specBreakBeforeMake target opp 0 tr

/-- Legal state letters of the bistable sketch. -/
def V1.legal (c : Char) : Prop := c = 'A' ∨ c = 'B'

/-- Legal state letters of the three-button sketch. -/
def T3.legal (c : Char) : Prop := c = 'A' ∨ c = 'B' ∨ c = 'C'

/-- Legal state letters of the cycle sketch. -/
def CY.legal (c : Char) : Prop := c = 'A' ∨ c = 'B' ∨ c = 'C'

/-- A trace of the bistable sketch is clean when, started from all outputs
low, it never drives both coils together and ends with all outputs low
again. -/
def v1Clean (t : List Ev) : Prop :=
  runPins allLow t = allLow ∧ allExclusive allLow t = true

/-- A trace of the cycle sketch moves the pins from the steady configuration
of one letter to the steady configuration of another without ever driving
both coils together. -/
def cyMoves (c : Char) (t : List Ev) (d : Char) : Prop :=
  runPins (coilConfig c) t = coilConfig d ∧ allExclusive (coilConfig c) t = true

/-- A trace of the three-button sketch moves the pins from the steady
configuration of one letter to the steady configuration of another; no
exclusivity is demanded since that sketch breaks it mid-transition. -/
def t3Moves (c : Char) (t : List Ev) (d : Char) : Prop :=
  runPins (coilConfig c) t = coilConfig d

theorem runPins_append (p : PinState) (t1 t2 : List Ev) :
    runPins p (t1 ++ t2) = runPins (runPins p t1) t2 := by
  simp [runPins, List.foldl_append]

theorem exclusive_and_allExclusive (p : PinState) (t : List Ev) :
    (exclusive p && allExclusive p t) = allExclusive p t := by
  cases t with
  | nil => simp [allExclusive]
  | cons e tr => rw [allExclusive, ← Bool.and_assoc, Bool.and_self]

theorem allExclusive_append (p : PinState) (t1 t2 : List Ev) :
    allExclusive p (t1 ++ t2)
      = (allExclusive p t1 && allExclusive (runPins p t1) t2) := by
  induction t1 generalizing p with
  | nil => simp [allExclusive, runPins, exclusive_and_allExclusive]
  | cons e tr ih =>
    simp [allExclusive, runPins, ih, Bool.and_assoc]

theorem serialOuts_append (t1 t2 : List Ev) :
    serialOuts (t1 ++ t2) = serialOuts t1 ++ serialOuts t2 := by
  induction t1 with
  | nil => rfl
  | cons e tr ih => cases e <;> simp [serialOuts, ih]

theorem eepromWrites_append (t1 t2 : List Ev) :
    eepromWrites (t1 ++ t2) = eepromWrites t1 ++ eepromWrites t2 := by
  induction t1 with
  | nil => rfl
  | cons e tr ih => cases e <;> simp [eepromWrites, ih]

theorem exclusive_coilConfig (c : Char) : exclusive (coilConfig c) = true := by
  unfold coilConfig
  by_cases h : c = 'A'
  · rw [if_pos h]; rfl
  · rw [if_neg h]
    by_cases h2 : c = 'B'
    · rw [if_pos h2]; rfl
    · rw [if_neg h2]; rfl

theorem v1Clean_nil : v1Clean [] := ⟨rfl, rfl⟩

theorem v1Clean_append {t1 t2 : List Ev} (h1 : v1Clean t1) (h2 : v1Clean t2) :
    v1Clean (t1 ++ t2) := by
  refine ⟨?_, ?_⟩
  · rw [runPins_append, h1.1, h2.1]
  · rw [allExclusive_append, h1.1, h1.2, h2.2]; rfl

theorem v1Clean_serial (s : String) : v1Clean [Ev.serialOut s] := ⟨rfl, rfl⟩

theorem v1Clean_eeprom (c : Char) : v1Clean [Ev.eepromUpdate c] := ⟨rfl, rfl⟩

theorem v1Clean_btnMsg (c : Char) : v1Clean (V1.btnMsg c) := ⟨rfl, rfl⟩

theorem v1Clean_pulseValve (pos : Char) : v1Clean (V1.pulseValve pos) := by
  unfold V1.pulseValve
  by_cases h : pos = 'A'
  · rw [if_pos h]; exact ⟨rfl, rfl⟩
  · rw [if_neg h]; exact ⟨rfl, rfl⟩

theorem v1Clean_setValve (s : V1.State) (pos : Char) (now : Nat) :
    v1Clean (V1.setValve s pos now).2 := by
  show v1Clean ((if pos ≠ s.currentState then [Ev.eepromUpdate pos] else [])
      ++ V1.pulseValve pos)
  by_cases h : pos ≠ s.currentState
  · rw [if_pos h]
    exact v1Clean_append (v1Clean_eeprom pos) (v1Clean_pulseValve pos)
  · rw [if_neg h, List.nil_append]
    exact v1Clean_pulseValve pos

theorem v1Clean_chan0 (s : V1.State) (now : Nat) (r0 : Bool) (entry : Nat) :
    v1Clean (V1.chan0 s now r0 entry).2 := by
  unfold V1.chan0
  by_cases h : r0 = false ∧ s.btnPrev0 = true ∧ usub now s.btnLastPress0 > V1.DEBOUNCE_MS
  · rw [if_pos h]
    exact v1Clean_append (v1Clean_setValve _ _ _) (v1Clean_btnMsg _)
  · rw [if_neg h]
    exact v1Clean_nil

theorem v1Clean_chan1 (s : V1.State) (now : Nat) (r1 : Bool) (entry : Nat) :
    v1Clean (V1.chan1 s now r1 entry).2 := by
  unfold V1.chan1
  by_cases h : r1 = false ∧ s.btnPrev1 = true ∧ usub now s.btnLastPress1 > V1.DEBOUNCE_MS
  · rw [if_pos h]
    exact v1Clean_append (v1Clean_setValve _ _ _) (v1Clean_btnMsg _)
  · rw [if_neg h]
    exact v1Clean_nil

theorem v1Clean_checkButtons (s : V1.State) (now : Nat) (r0 r1 : Bool) :
    v1Clean (V1.checkButtons s now r0 r1).2 := by
  unfold V1.checkButtons
  by_cases h : usub now s.lastChangeTime < V1.EMI_GUARD_MS
  · rw [if_pos h]; exact v1Clean_nil
  · rw [if_neg h]
    exact v1Clean_append (v1Clean_chan0 _ _ _ _) (v1Clean_chan1 _ _ _ _)

theorem v1Clean_serialStep (s : V1.State) (now : Nat) (cmd : Option Char) :
    v1Clean (V1.serialStep s now cmd).2 := by
  cases cmd with
  | none => exact v1Clean_nil
  | some c =>
    simp only [V1.serialStep]
    by_cases h : c = 'A' ∨ c = 'B'
    · rw [if_pos h]
      exact v1Clean_append (v1Clean_setValve _ _ _)
        (v1Clean_append (v1Clean_serial _) (v1Clean_serial _))
    · rw [if_neg h]
      by_cases h2 : c = '?'
      · rw [if_pos h2]
        exact v1Clean_append (v1Clean_serial _) (v1Clean_serial _)
      · rw [if_neg h2]; exact v1Clean_nil

theorem v1Clean_loopStep (s : V1.State) (now : Nat) (r0 r1 : Bool)
    (cmd : Option Char) : v1Clean (V1.loopStep s now r0 r1 cmd).2 := by
  unfold V1.loopStep
  exact v1Clean_append (v1Clean_checkButtons _ _ _ _) (v1Clean_serialStep _ _ _)

theorem v1Clean_run (ins : List V1.Input) (s : V1.State) :
    v1Clean (V1.run s ins).2 := by
  induction ins generalizing s with
  | nil => exact v1Clean_nil
  | cons i is ih =>
    exact v1Clean_append (v1Clean_loopStep _ _ _ _ _) (ih _)

theorem v1Clean_boot (cell : Char) : v1Clean (V1.boot cell).2 := by
  show v1Clean (V1.pulseValve (V1.loadSavedState cell) ++ [Ev.serialOut "READY\n"])
  exact v1Clean_append (v1Clean_pulseValve _) (v1Clean_serial _)

theorem cyMoves_nil (c : Char) : cyMoves c [] c := ⟨rfl, exclusive_coilConfig c⟩

theorem cyMoves_append {c d e : Char} {t1 t2 : List Ev}
    (h1 : cyMoves c t1 d) (h2 : cyMoves d t2 e) : cyMoves c (t1 ++ t2) e := by
  refine ⟨?_, ?_⟩
  · rw [runPins_append, h1.1, h2.1]
  · rw [allExclusive_append, h1.1, h1.2, h2.2]; rfl

theorem cyMoves_serial (c : Char) (s : String) : cyMoves c [Ev.serialOut s] c :=
  ⟨rfl, by simp [allExclusive, stepPins, exclusive_coilConfig]⟩

theorem cyMoves_btnMsg (c d : Char) : cyMoves c (CY.btnMsg d) c :=
  ⟨rfl, by simp [CY.btnMsg, allExclusive, stepPins, exclusive_coilConfig]⟩

theorem cyMoves_setValve (s : CY.State) {c pos : Char} (hc : CY.legal c)
    (hp : CY.legal pos) : cyMoves c (CY.setValve s pos).2 pos := by
  rcases hc with h | h | h <;> rcases hp with h2 | h2 | h2 <;> subst h <;> subst h2 <;>
    exact ⟨rfl, rfl⟩

theorem cy_setValve_currentState (s : CY.State) {pos : Char} (hp : CY.legal pos) :
    (CY.setValve s pos).1.currentState = pos := by
  rcases hp with h | h | h <;> subst h <;> rfl

theorem cy_nextState_legal (c : Char) : CY.legal (CY.nextState c) := by
  unfold CY.legal CY.nextState
  by_cases h : c = 'C'
  · rw [if_pos h]; exact Or.inl rfl
  · rw [if_neg h]
    by_cases h2 : c = 'A'
    · rw [if_pos h2]; exact Or.inr (Or.inl rfl)
    · rw [if_neg h2]
      by_cases h3 : c = 'B'
      · rw [if_pos h3]; exact Or.inr (Or.inr rfl)
      · rw [if_neg h3]; exact Or.inr (Or.inr rfl)

theorem cy_checkButton_inv (s : CY.State) (now : Nat) (r : Bool)
    (hc : CY.legal s.currentState) :
    CY.legal ((CY.checkButton s now r).1.currentState) ∧
    cyMoves s.currentState (CY.checkButton s now r).2
      ((CY.checkButton s now r).1.currentState) := by
  unfold CY.checkButton
  by_cases h1 : r = false ∧ s.lastBtnState = true
  · rw [if_pos h1]
    by_cases h2 : usub now s.lastBtnTime > CY.DEBOUNCE_MS
    · rw [if_pos h2]
      dsimp only
      have hl := cy_nextState_legal s.currentState
      rw [cy_setValve_currentState _ hl]
      exact ⟨hl, cyMoves_append (cyMoves_setValve _ hc hl) (cyMoves_btnMsg _ _)⟩
    · rw [if_neg h2]
      exact ⟨hc, cyMoves_nil _⟩
  · rw [if_neg h1]
    exact ⟨hc, cyMoves_nil _⟩

theorem cy_serialStep_inv (s : CY.State) (cmd : Option Char)
    (hc : CY.legal s.currentState) :
    CY.legal ((CY.serialStep s cmd).1.currentState) ∧
    cyMoves s.currentState (CY.serialStep s cmd).2
      ((CY.serialStep s cmd).1.currentState) := by
  cases cmd with
  | none => exact ⟨hc, cyMoves_nil _⟩
  | some c =>
    simp only [CY.serialStep]
    by_cases h : c = 'A' ∨ c = 'B' ∨ c = 'C'
    · rw [if_pos h]
      dsimp only
      rw [cy_setValve_currentState _ h]
      refine ⟨h, cyMoves_append (cyMoves_setValve _ hc h) ?_⟩
      exact cyMoves_append (cyMoves_serial _ _) (cyMoves_serial _ _)
    · rw [if_neg h]
      by_cases h2 : c = '?'
      · rw [if_pos h2]
        exact ⟨hc, cyMoves_append (cyMoves_serial _ _) (cyMoves_serial _ _)⟩
      · rw [if_neg h2]
        exact ⟨hc, cyMoves_serial _ _⟩

theorem cy_loopStep_inv (s : CY.State) (now : Nat) (r : Bool) (cmd : Option Char)
    (hc : CY.legal s.currentState) :
    CY.legal ((CY.loopStep s now r cmd).1.currentState) ∧
    cyMoves s.currentState (CY.loopStep s now r cmd).2
      ((CY.loopStep s now r cmd).1.currentState) := by
  unfold CY.loopStep
  dsimp only
  have h1 := cy_checkButton_inv s now r hc
  have h2 := cy_serialStep_inv (CY.checkButton s now r).1 cmd h1.1
  exact ⟨h2.1, cyMoves_append h1.2 h2.2⟩

theorem cy_run_inv (ins : List CY.Input) (s : CY.State)
    (hc : CY.legal s.currentState) :
    CY.legal ((CY.run s ins).1.currentState) ∧
    cyMoves s.currentState (CY.run s ins).2 ((CY.run s ins).1.currentState) := by
  induction ins generalizing s with
  | nil => exact ⟨hc, cyMoves_nil _⟩
  | cons i is ih =>
    simp only [CY.run]
    have h1 := cy_loopStep_inv s i.now i.reading i.cmd hc
    have h2 := ih (CY.loopStep s i.now i.reading i.cmd).1 h1.1
    exact ⟨h2.1, cyMoves_append h1.2 h2.2⟩

theorem t3_runPins_applyOutputs (p : PinState) (pos : Char) :
    runPins p (T3.applyOutputs pos) = coilConfig pos := by
  unfold T3.applyOutputs coilConfig
  by_cases h : pos = 'A'
  · rw [if_pos h, if_pos h]; rfl
  · rw [if_neg h, if_neg h]
    by_cases h2 : pos = 'B'
    · rw [if_pos h2, if_pos h2]; rfl
    · rw [if_neg h2, if_neg h2]; rfl

theorem t3_runPins_setValve (s : T3.State) (pos : Char) (now : Nat)
    (p : PinState) : runPins p (T3.setValve s pos now).2 = coilConfig pos := by
  show runPins p ((if pos ≠ s.currentState then [Ev.eepromUpdate pos] else [])
      ++ T3.applyOutputs pos) = coilConfig pos
  rw [runPins_append]
  have hpre : runPins p (if pos ≠ s.currentState then [Ev.eepromUpdate pos] else []) = p := by
    by_cases h : pos ≠ s.currentState
    · rw [if_pos h]; rfl
    · rw [if_neg h]; rfl
  rw [hpre, t3_runPins_applyOutputs]

theorem t3Moves_nil (c : Char) : t3Moves c [] c := rfl

theorem t3Moves_append {c d e : Char} {t1 t2 : List Ev}
    (h1 : t3Moves c t1 d) (h2 : t3Moves d t2 e) : t3Moves c (t1 ++ t2) e := by
  unfold t3Moves at h1 h2 ⊢
  rw [runPins_append, h1, h2]

theorem t3Moves_serial (c : Char) (s : String) : t3Moves c [Ev.serialOut s] c := rfl

theorem t3Moves_btnMsg (c d : Char) : t3Moves c (T3.btnMsg d) c := rfl

theorem t3Moves_setValve (s : T3.State) (pos : Char) (now : Nat) (c : Char) :
    t3Moves c (T3.setValve s pos now).2 pos :=
  t3_runPins_setValve s pos now (coilConfig c)

theorem t3_chan0_inv (s : T3.State) (now : Nat) (r0 : Bool)
    (hl : T3.legal s.currentState) :
    T3.legal ((T3.chan0 s now r0).1.currentState) ∧
    t3Moves s.currentState (T3.chan0 s now r0).2
      ((T3.chan0 s now r0).1.currentState) := by
  unfold T3.chan0
  by_cases h : r0 = false ∧ s.btnPrev0 = true ∧ usub now s.btnLastPress0 > T3.DEBOUNCE_MS
  · rw [if_pos h]
    dsimp only
    exact ⟨Or.inl rfl, t3Moves_append (t3Moves_setValve _ _ _ _) (t3Moves_btnMsg _ _)⟩
  · rw [if_neg h]
    exact ⟨hl, t3Moves_nil _⟩

theorem t3_chan1_inv (s : T3.State) (now : Nat) (r1 : Bool)
    (hl : T3.legal s.currentState) :
    T3.legal ((T3.chan1 s now r1).1.currentState) ∧
    t3Moves s.currentState (T3.chan1 s now r1).2
      ((T3.chan1 s now r1).1.currentState) := by
  unfold T3.chan1
  by_cases h : r1 = false ∧ s.btnPrev1 = true ∧ usub now s.btnLastPress1 > T3.DEBOUNCE_MS
  · rw [if_pos h]
    dsimp only
    exact ⟨Or.inr (Or.inl rfl),
      t3Moves_append (t3Moves_setValve _ _ _ _) (t3Moves_btnMsg _ _)⟩
  · rw [if_neg h]
    exact ⟨hl, t3Moves_nil _⟩

theorem t3_chan2_inv (s : T3.State) (now : Nat) (r2 : Bool)
    (hl : T3.legal s.currentState) :
    T3.legal ((T3.chan2 s now r2).1.currentState) ∧
    t3Moves s.currentState (T3.chan2 s now r2).2
      ((T3.chan2 s now r2).1.currentState) := by
  unfold T3.chan2
  by_cases h : r2 = false ∧ s.btnPrev2 = true ∧ usub now s.btnLastPress2 > T3.DEBOUNCE_MS
  · rw [if_pos h]
    dsimp only
    exact ⟨Or.inr (Or.inr rfl),
      t3Moves_append (t3Moves_setValve _ _ _ _) (t3Moves_btnMsg _ _)⟩
  · rw [if_neg h]
    exact ⟨hl, t3Moves_nil _⟩

theorem t3_checkButtons_inv (s : T3.State) (now : Nat) (r0 r1 r2 : Bool)
    (hl : T3.legal s.currentState) :
    T3.legal ((T3.checkButtons s now r0 r1 r2).1.currentState) ∧
    t3Moves s.currentState (T3.checkButtons s now r0 r1 r2).2
      ((T3.checkButtons s now r0 r1 r2).1.currentState) := by
  unfold T3.checkButtons
  by_cases h : usub now s.lastChangeTime < T3.EMI_GUARD_MS
  · rw [if_pos h]
    exact ⟨hl, t3Moves_nil _⟩
  · rw [if_neg h]
    dsimp only
    have h0 := t3_chan0_inv s now r0 hl
    have h1 := t3_chan1_inv (T3.chan0 s now r0).1 now r1 h0.1
    have h2 := t3_chan2_inv (T3.chan1 (T3.chan0 s now r0).1 now r1).1 now r2 h1.1
    exact ⟨h2.1, t3Moves_append (t3Moves_append h0.2 h1.2) h2.2⟩

theorem t3_serialStep_inv (s : T3.State) (now : Nat) (cmd : Option Char)
    (hl : T3.legal s.currentState) :
    T3.legal ((T3.serialStep s now cmd).1.currentState) ∧
    t3Moves s.currentState (T3.serialStep s now cmd).2
      ((T3.serialStep s now cmd).1.currentState) := by
  cases cmd with
  | none => exact ⟨hl, t3Moves_nil _⟩
  | some c =>
    simp only [T3.serialStep]
    by_cases h : c = 'A' ∨ c = 'B' ∨ c = 'C'
    · rw [if_pos h]
      dsimp only
      refine ⟨h, t3Moves_append (t3Moves_setValve _ _ _ _) ?_⟩
      exact t3Moves_append (t3Moves_serial _ _) (t3Moves_serial _ _)
    · rw [if_neg h]
      by_cases h2 : c = '?'
      · rw [if_pos h2]
        exact ⟨hl, t3Moves_append (t3Moves_serial _ _) (t3Moves_serial _ _)⟩
      · rw [if_neg h2]
        exact ⟨hl, t3Moves_nil _⟩

theorem t3_loopStep_inv (s : T3.State) (now : Nat) (r0 r1 r2 : Bool)
    (cmd : Option Char) (hl : T3.legal s.currentState) :
    T3.legal ((T3.loopStep s now r0 r1 r2 cmd).1.currentState) ∧
    t3Moves s.currentState (T3.loopStep s now r0 r1 r2 cmd).2
      ((T3.loopStep s now r0 r1 r2 cmd).1.currentState) := by
  unfold T3.loopStep
  dsimp only
  have h1 := t3_checkButtons_inv s now r0 r1 r2 hl
  have h2 := t3_serialStep_inv (T3.checkButtons s now r0 r1 r2).1 now cmd h1.1
  exact ⟨h2.1, t3Moves_append h1.2 h2.2⟩

theorem t3_run_inv (ins : List T3.Input) (s : T3.State)
    (hl : T3.legal s.currentState) :
    T3.legal ((T3.run s ins).1.currentState) ∧
    t3Moves s.currentState (T3.run s ins).2 ((T3.run s ins).1.currentState) := by
  induction ins generalizing s with
  | nil => exact ⟨hl, t3Moves_nil _⟩
  | cons i is ih =>
    simp only [T3.run]
    have h1 := t3_loopStep_inv s i.now i.r0 i.r1 i.r2 i.cmd hl
    have h2 := ih (T3.loopStep s i.now i.r0 i.r1 i.r2 i.cmd).1 h1.1
    exact ⟨h2.1, t3Moves_append h1.2 h2.2⟩

theorem v1_chan0_legal (s : V1.State) (now : Nat) (r0 : Bool) (entry : Nat)
    (hl : V1.legal s.currentState) :
    V1.legal ((V1.chan0 s now r0 entry).1.currentState) := by
  unfold V1.chan0
  by_cases h : r0 = false ∧ s.btnPrev0 = true ∧ usub now s.btnLastPress0 > V1.DEBOUNCE_MS
  · rw [if_pos h]; exact Or.inl rfl
  · rw [if_neg h]; exact hl

theorem v1_chan1_legal (s : V1.State) (now : Nat) (r1 : Bool) (entry : Nat)
    (hl : V1.legal s.currentState) :
    V1.legal ((V1.chan1 s now r1 entry).1.currentState) := by
  unfold V1.chan1
  by_cases h : r1 = false ∧ s.btnPrev1 = true ∧ usub now s.btnLastPress1 > V1.DEBOUNCE_MS
  · rw [if_pos h]; exact Or.inr rfl
  · rw [if_neg h]; exact hl

theorem v1_checkButtons_legal (s : V1.State) (now : Nat) (r0 r1 : Bool)
    (hl : V1.legal s.currentState) :
    V1.legal ((V1.checkButtons s now r0 r1).1.currentState) := by
  unfold V1.checkButtons
  by_cases h : usub now s.lastChangeTime < V1.EMI_GUARD_MS
  · rw [if_pos h]; exact hl
  · rw [if_neg h]
    exact v1_chan1_legal _ _ _ _ (v1_chan0_legal _ _ _ _ hl)

theorem v1_serialStep_legal (s : V1.State) (now : Nat) (cmd : Option Char)
    (hl : V1.legal s.currentState) :
    V1.legal ((V1.serialStep s now cmd).1.currentState) := by
  cases cmd with
  | none => exact hl
  | some c =>
    simp only [V1.serialStep]
    by_cases h : c = 'A' ∨ c = 'B'
    · rw [if_pos h]; exact h
    · rw [if_neg h]
      by_cases h2 : c = '?'
      · rw [if_pos h2]; exact hl
      · rw [if_neg h2]; exact hl

theorem v1_loopStep_legal (s : V1.State) (now : Nat) (r0 r1 : Bool)
    (cmd : Option Char) (hl : V1.legal s.currentState) :
    V1.legal ((V1.loopStep s now r0 r1 cmd).1.currentState) := by
  unfold V1.loopStep
  exact v1_serialStep_legal _ _ _ (v1_checkButtons_legal _ _ _ _ hl)

theorem v1_run_legal (ins : List V1.Input) (s : V1.State)
    (hl : V1.legal s.currentState) :
    V1.legal ((V1.run s ins).1.currentState) := by
  induction ins generalizing s with
  | nil => exact hl
  | cons i is ih =>
    simp only [V1.run]
    exact ih _ (v1_loopStep_legal _ _ _ _ _ hl)

theorem v1_boot_legal (cell : Char) : V1.legal ((V1.boot cell).1.currentState) := by
  show V1.legal (V1.loadSavedState cell)
  unfold V1.legal V1.loadSavedState
  by_cases h : cell = 'A' ∨ cell = 'B'
  · rw [if_pos h]; exact h
  · rw [if_neg h]; exact Or.inl rfl

theorem t3_boot_legal (cell : Char) : T3.legal ((T3.boot cell).1.currentState) := by
  show T3.legal (T3.loadSavedState cell)
  unfold T3.legal T3.loadSavedState
  by_cases h : cell = 'A' ∨ cell = 'B' ∨ cell = 'C'
  · rw [if_pos h]; exact h
  · rw [if_neg h]; exact Or.inr (Or.inr rfl)

theorem cy_boot_legal (cell : Char) : CY.legal ((CY.boot cell).1.currentState) :=
  Or.inr (Or.inr rfl)

theorem serialOuts_pulseValve (pos : Char) : serialOuts (V1.pulseValve pos) = [] := by
  unfold V1.pulseValve
  by_cases h : pos = 'A'
  · rw [if_pos h]; rfl
  · rw [if_neg h]; rfl

theorem eepromWrites_pulseValve (pos : Char) : eepromWrites (V1.pulseValve pos) = [] := by
  unfold V1.pulseValve
  by_cases h : pos = 'A'
  · rw [if_pos h]; rfl
  · rw [if_neg h]; rfl

theorem serialOuts_applyOutputs (pos : Char) : serialOuts (T3.applyOutputs pos) = [] := by
  unfold T3.applyOutputs
  by_cases h : pos = 'A'
  · rw [if_pos h]; rfl
  · rw [if_neg h]
    by_cases h2 : pos = 'B'
    · rw [if_pos h2]; rfl
    · rw [if_neg h2]; rfl

theorem eepromWrites_applyOutputs (pos : Char) : eepromWrites (T3.applyOutputs pos) = [] := by
  unfold T3.applyOutputs
  by_cases h : pos = 'A'
  · rw [if_pos h]; rfl
  · rw [if_neg h]
    by_cases h2 : pos = 'B'
    · rw [if_pos h2]; rfl
    · rw [if_neg h2]; rfl

theorem serialOuts_cy_setValve (s : CY.State) (pos : Char) :
    serialOuts (CY.setValve s pos).2 = [] := by
  unfold CY.setValve
  by_cases h : pos = 'A'
  · rw [if_pos h]; rfl
  · rw [if_neg h]
    by_cases h2 : pos = 'B'
    · rw [if_pos h2]; rfl
    · rw [if_neg h2]
      by_cases h3 : pos = 'C'
      · rw [if_pos h3]; rfl
      · rw [if_neg h3]; rfl

theorem eepromWrites_cy_setValve (s : CY.State) (pos : Char) :
    eepromWrites (CY.setValve s pos).2 = [] := by
  unfold CY.setValve
  by_cases h : pos = 'A'
  · rw [if_pos h]; rfl
  · rw [if_neg h]
    by_cases h2 : pos = 'B'
    · rw [if_pos h2]; rfl
    · rw [if_neg h2]
      by_cases h3 : pos = 'C'
      · rw [if_pos h3]; rfl
      · rw [if_neg h3]; rfl

theorem serialOuts_v1_setValve (s : V1.State) (pos : Char) (now : Nat) :
    serialOuts (V1.setValve s pos now).2 = [] := by
  show serialOuts ((if pos ≠ s.currentState then [Ev.eepromUpdate pos] else [])
      ++ V1.pulseValve pos) = []
  rw [serialOuts_append, serialOuts_pulseValve]
  by_cases h : pos ≠ s.currentState
  · rw [if_pos h]; rfl
  · rw [if_neg h]; rfl

theorem serialOuts_t3_setValve (s : T3.State) (pos : Char) (now : Nat) :
    serialOuts (T3.setValve s pos now).2 = [] := by
  show serialOuts ((if pos ≠ s.currentState then [Ev.eepromUpdate pos] else [])
      ++ T3.applyOutputs pos) = []
  rw [serialOuts_append, serialOuts_applyOutputs]
  by_cases h : pos ≠ s.currentState
  · rw [if_pos h]; rfl
  · rw [if_neg h]; rfl

theorem mem_ite_btn (x y : String) (c : Prop) [Decidable c] :
    (x ∈ (if c then ["BTN:", y] else [])) ↔ (c ∧ (x = "BTN:" ∨ x = y)) := by
  by_cases h : c
  · rw [if_pos h]; simp [h]
  · rw [if_neg h]; simp [h]

theorem t3_chan0_serialOuts (s : T3.State) (now : Nat) (r0 : Bool) :
    serialOuts (T3.chan0 s now r0).2
      = if r0 = false ∧ s.btnPrev0 = true ∧ usub now s.btnLastPress0 > T3.DEBOUNCE_MS
        then ["BTN:", lineOf 'A'] else [] := by
  unfold T3.chan0
  by_cases h : r0 = false ∧ s.btnPrev0 = true ∧ usub now s.btnLastPress0 > T3.DEBOUNCE_MS
  · rw [if_pos h, if_pos h]
    dsimp only
    rw [serialOuts_append, serialOuts_t3_setValve]
    rfl
  · rw [if_neg h, if_neg h]; rfl

theorem t3_chan1_serialOuts (s : T3.State) (now : Nat) (r1 : Bool) :
    serialOuts (T3.chan1 s now r1).2
      = if r1 = false ∧ s.btnPrev1 = true ∧ usub now s.btnLastPress1 > T3.DEBOUNCE_MS
        then ["BTN:", lineOf 'B'] else [] := by
  unfold T3.chan1
  by_cases h : r1 = false ∧ s.btnPrev1 = true ∧ usub now s.btnLastPress1 > T3.DEBOUNCE_MS
  · rw [if_pos h, if_pos h]
    dsimp only
    rw [serialOuts_append, serialOuts_t3_setValve]
    rfl
  · rw [if_neg h, if_neg h]; rfl

theorem t3_chan2_serialOuts (s : T3.State) (now : Nat) (r2 : Bool) :
    serialOuts (T3.chan2 s now r2).2
      = if r2 = false ∧ s.btnPrev2 = true ∧ usub now s.btnLastPress2 > T3.DEBOUNCE_MS
        then ["BTN:", lineOf 'C'] else [] := by
  unfold T3.chan2
  by_cases h : r2 = false ∧ s.btnPrev2 = true ∧ usub now s.btnLastPress2 > T3.DEBOUNCE_MS
  · rw [if_pos h, if_pos h]
    dsimp only
    rw [serialOuts_append, serialOuts_t3_setValve]
    rfl
  · rw [if_neg h, if_neg h]; rfl

theorem t3_chan0_btnPrev1 (s : T3.State) (now : Nat) (r0 : Bool) :
    (T3.chan0 s now r0).1.btnPrev1 = s.btnPrev1 := by
  unfold T3.chan0
  by_cases h : r0 = false ∧ s.btnPrev0 = true ∧ usub now s.btnLastPress0 > T3.DEBOUNCE_MS
  · rw [if_pos h]; rfl
  · rw [if_neg h]

theorem t3_chan0_btnLastPress1 (s : T3.State) (now : Nat) (r0 : Bool) :
    (T3.chan0 s now r0).1.btnLastPress1 = s.btnLastPress1 := by
  unfold T3.chan0
  by_cases h : r0 = false ∧ s.btnPrev0 = true ∧ usub now s.btnLastPress0 > T3.DEBOUNCE_MS
  · rw [if_pos h]; rfl
  · rw [if_neg h]

theorem t3_chan0_btnPrev2 (s : T3.State) (now : Nat) (r0 : Bool) :
    (T3.chan0 s now r0).1.btnPrev2 = s.btnPrev2 := by
  unfold T3.chan0
  by_cases h : r0 = false ∧ s.btnPrev0 = true ∧ usub now s.btnLastPress0 > T3.DEBOUNCE_MS
  · rw [if_pos h]; rfl
  · rw [if_neg h]

theorem t3_chan0_btnLastPress2 (s : T3.State) (now : Nat) (r0 : Bool) :
    (T3.chan0 s now r0).1.btnLastPress2 = s.btnLastPress2 := by
  unfold T3.chan0
  by_cases h : r0 = false ∧ s.btnPrev0 = true ∧ usub now s.btnLastPress0 > T3.DEBOUNCE_MS
  · rw [if_pos h]; rfl
  · rw [if_neg h]

theorem t3_chan1_btnPrev2 (s : T3.State) (now : Nat) (r1 : Bool) :
    (T3.chan1 s now r1).1.btnPrev2 = s.btnPrev2 := by
  unfold T3.chan1
  by_cases h : r1 = false ∧ s.btnPrev1 = true ∧ usub now s.btnLastPress1 > T3.DEBOUNCE_MS
  · rw [if_pos h]; rfl
  · rw [if_neg h]

theorem t3_chan1_btnLastPress2 (s : T3.State) (now : Nat) (r1 : Bool) :
    (T3.chan1 s now r1).1.btnLastPress2 = s.btnLastPress2 := by
  unfold T3.chan1
  by_cases h : r1 = false ∧ s.btnPrev1 = true ∧ usub now s.btnLastPress1 > T3.DEBOUNCE_MS
  · rw [if_pos h]; rfl
  · rw [if_neg h]

theorem v1_chan0_serialOuts (s : V1.State) (now : Nat) (r0 : Bool) (entry : Nat) :
    serialOuts (V1.chan0 s now r0 entry).2
      = if r0 = false ∧ s.btnPrev0 = true ∧ usub now s.btnLastPress0 > V1.DEBOUNCE_MS
        then ["BTN:", lineOf 'A'] else [] := by
  unfold V1.chan0
  by_cases h : r0 = false ∧ s.btnPrev0 = true ∧ usub now s.btnLastPress0 > V1.DEBOUNCE_MS
  · rw [if_pos h, if_pos h]
    dsimp only
    rw [serialOuts_append, serialOuts_v1_setValve]
    rfl
  · rw [if_neg h, if_neg h]; rfl

theorem v1_chan1_serialOuts (s : V1.State) (now : Nat) (r1 : Bool) (entry : Nat) :
    serialOuts (V1.chan1 s now r1 entry).2
      = if r1 = false ∧ s.btnPrev1 = true ∧ usub now s.btnLastPress1 > V1.DEBOUNCE_MS
        then ["BTN:", lineOf 'B'] else [] := by
  unfold V1.chan1
  by_cases h : r1 = false ∧ s.btnPrev1 = true ∧ usub now s.btnLastPress1 > V1.DEBOUNCE_MS
  · rw [if_pos h, if_pos h]
    dsimp only
    rw [serialOuts_append, serialOuts_v1_setValve]
    rfl
  · rw [if_neg h, if_neg h]; rfl

theorem v1_chan0_btnPrev1 (s : V1.State) (now : Nat) (r0 : Bool) (entry : Nat) :
    (V1.chan0 s now r0 entry).1.btnPrev1 = s.btnPrev1 := by
  unfold V1.chan0
  by_cases h : r0 = false ∧ s.btnPrev0 = true ∧ usub now s.btnLastPress0 > V1.DEBOUNCE_MS
  · rw [if_pos h]; rfl
  · rw [if_neg h]

theorem v1_chan0_btnLastPress1 (s : V1.State) (now : Nat) (r0 : Bool) (entry : Nat) :
    (V1.chan0 s now r0 entry).1.btnLastPress1 = s.btnLastPress1 := by
  unfold V1.chan0
  by_cases h : r0 = false ∧ s.btnPrev0 = true ∧ usub now s.btnLastPress0 > V1.DEBOUNCE_MS
  · rw [if_pos h]; rfl
  · rw [if_neg h]

theorem cy_checkButton_serialOuts (u : CY.State) (m : Nat) (r : Bool) :
    serialOuts (CY.checkButton u m r).2
      = if r = false ∧ u.lastBtnState = true ∧ usub m u.lastBtnTime > CY.DEBOUNCE_MS
        then ["BTN:", lineOf (CY.nextState u.currentState)] else [] := by
  unfold CY.checkButton
  by_cases h1 : r = false ∧ u.lastBtnState = true
  · rw [if_pos h1]
    by_cases h2 : usub m u.lastBtnTime > CY.DEBOUNCE_MS
    · rw [if_pos h2, if_pos ⟨h1.1, h1.2, h2⟩]
      dsimp only
      rw [serialOuts_append, serialOuts_cy_setValve,
        cy_setValve_currentState _ (cy_nextState_legal _)]
      rfl
    · rw [if_neg h2, if_neg (fun hh => h2 hh.2.2)]
      rfl
  · rw [if_neg h1, if_neg (fun hh => h1 ⟨hh.1, hh.2.1⟩)]
    rfl

theorem cy_checkButton_currentState (u : CY.State) (m : Nat) (r : Bool) :
    (CY.checkButton u m r).1.currentState
      = if r = false ∧ u.lastBtnState = true ∧ usub m u.lastBtnTime > CY.DEBOUNCE_MS
        then CY.nextState u.currentState else u.currentState := by
  unfold CY.checkButton
  by_cases h1 : r = false ∧ u.lastBtnState = true
  · rw [if_pos h1]
    by_cases h2 : usub m u.lastBtnTime > CY.DEBOUNCE_MS
    · rw [if_pos h2, if_pos ⟨h1.1, h1.2, h2⟩]
      dsimp only
      exact cy_setValve_currentState _ (cy_nextState_legal _)
    · rw [if_neg h2, if_neg (fun hh => h2 hh.2.2)]
  · rw [if_neg h1, if_neg (fun hh => h1 ⟨hh.1, hh.2.1⟩)]

theorem t3_checkButtons_serialOuts (s : T3.State) (now : Nat) (r0 r1 r2 : Bool)
    (h : ¬ usub now s.lastChangeTime < T3.EMI_GUARD_MS) :
    serialOuts (T3.checkButtons s now r0 r1 r2).2
      = (if r0 = false ∧ s.btnPrev0 = true ∧ usub now s.btnLastPress0 > T3.DEBOUNCE_MS
         then ["BTN:", lineOf 'A'] else [])
        ++ ((if r1 = false ∧ s.btnPrev1 = true ∧ usub now s.btnLastPress1 > T3.DEBOUNCE_MS
         then ["BTN:", lineOf 'B'] else [])
        ++ (if r2 = false ∧ s.btnPrev2 = true ∧ usub now s.btnLastPress2 > T3.DEBOUNCE_MS
         then ["BTN:", lineOf 'C'] else [])) := by
  unfold T3.checkButtons
  rw [if_neg h]
  dsimp only
  rw [serialOuts_append, serialOuts_append, List.append_assoc,
    t3_chan0_serialOuts, t3_chan1_serialOuts, t3_chan2_serialOuts,
    t3_chan0_btnPrev1, t3_chan0_btnLastPress1,
    t3_chan1_btnPrev2, t3_chan0_btnPrev2, t3_chan1_btnLastPress2,
    t3_chan0_btnLastPress2]

theorem v1_checkButtons_serialOuts (s : V1.State) (now : Nat) (r0 r1 : Bool)
    (h : ¬ usub now s.lastChangeTime < V1.EMI_GUARD_MS) :
    serialOuts (V1.checkButtons s now r0 r1).2
      = (if r0 = false ∧ s.btnPrev0 = true ∧ usub now s.btnLastPress0 > V1.DEBOUNCE_MS
         then ["BTN:", lineOf 'A'] else [])
        ++ (if r1 = false ∧ s.btnPrev1 = true ∧ usub now s.btnLastPress1 > V1.DEBOUNCE_MS
         then ["BTN:", lineOf 'B'] else []) := by
  unfold V1.checkButtons
  rw [if_neg h]
  dsimp only
  rw [serialOuts_append, v1_chan0_serialOuts, v1_chan1_serialOuts,
    v1_chan0_btnPrev1, v1_chan0_btnLastPress1]

theorem t3_boot_pins (cell : Char) :
    runPins allLow (T3.boot cell).2 = coilConfig ((T3.boot cell).1.currentState) := by
  show runPins allLow
      (T3.applyOutputs (T3.loadSavedState cell) ++ [Ev.serialOut "READY\n"])
    = coilConfig ((T3.boot cell).1.currentState)
  rw [runPins_append, t3_runPins_applyOutputs]
  rfl

/-- Claim C2, counterexample: the three-button sketch's applyOutputs does not
follow the break-before-make ordering the spec describes.  On a transition to
A it energizes coil A as its very first write, before de-energizing coil B
and with no settle delay. -/
theorem claim_C2_counterexample :
    specOrderOk Pin.solA Pin.solB (T3.applyOutputs 'A') = false
    ∧ Ev.pinWrite Pin.solA true ∈ T3.applyOutputs 'A'
    ∧ delayTime (T3.applyOutputs 'A') = 0 := by
  refine ⟨rfl, ?_, rfl⟩
  decide

/-- Claim C2 (amended): only the cycle-button sketch's setValve de-energizes
the opposite coil, waits a fixed settle delay, and then energizes the target
coil; its rest state releases both coils with no ordering constraint.  The
bistable pulseValve and the three-button applyOutputs have no settle delay
anywhere in the switching sequence: their A branches energize coil A before
releasing coil B, while their B branches do release coil A first but
energize coil B immediately afterwards, with no delay between the two
writes; the three-button rest state releases both coils.  The trace
equations below exhibit the exact write orders, and the spec ordering
predicate fails on all four non-cycle coil-energizing branches. -/
theorem claim_C2_amended (u : CY.State) :
    specOrderOk Pin.solA Pin.solB (CY.setValve u 'A').2 = true
    ∧ specOrderOk Pin.solB Pin.solA (CY.setValve u 'B').2 = true
    ∧ (CY.setValve u 'C').2
        = [Ev.pinWrite Pin.solA false, Ev.pinWrite Pin.solB false,
           Ev.pinWrite Pin.led false]
    ∧ T3.applyOutputs 'A'
        = [Ev.pinWrite Pin.solA true, Ev.pinWrite Pin.solB false,
           Ev.pinWrite Pin.led true]
    ∧ T3.applyOutputs 'B'
        = [Ev.pinWrite Pin.solA false, Ev.pinWrite Pin.solB true,
           Ev.pinWrite Pin.led true]
    ∧ T3.applyOutputs 'C'
        = [Ev.pinWrite Pin.solA false, Ev.pinWrite Pin.solB false,
           Ev.pinWrite Pin.led false]
    ∧ specOrderOk Pin.solA Pin.solB (T3.applyOutputs 'A') = false
    ∧ specOrderOk Pin.solB Pin.solA (T3.applyOutputs 'B') = false
    ∧ V1.pulseValve 'A'
        = [Ev.pinWrite Pin.led true, Ev.pinWrite Pin.solA true,
           Ev.pinWrite Pin.solB false, Ev.delayMs 150, Ev.pinWrite Pin.solA false,
           Ev.pinWrite Pin.solB false, Ev.pinWrite Pin.led false]
    ∧ V1.pulseValve 'B'
        = [Ev.pinWrite Pin.led true, Ev.pinWrite Pin.solA false,
           Ev.pinWrite Pin.solB true, Ev.delayMs 150, Ev.pinWrite Pin.solA false,
           Ev.pinWrite Pin.solB false, Ev.pinWrite Pin.led false]
    ∧ specOrderOk Pin.solA Pin.solB (V1.pulseValve 'A') = false
    ∧ specOrderOk Pin.solB Pin.solA (V1.pulseValve 'B') = false :=
  ⟨rfl, rfl, rfl, rfl, rfl, rfl, rfl, rfl, rfl, rfl, rfl, rfl⟩

/-- Claim C3, counterexample: in the cycle sketch a committed state change
(Center to A, via the protocol) performs no persistent-store write at all;
that sketch has no EEPROM access. -/
theorem claim_C3_counterexample :
    (CY.serialStep ⟨'C', true, 0⟩ (some 'A')).1.currentState = 'A'
    ∧ (⟨'C', true, 0⟩ : CY.State).currentState ≠ 'A'
    ∧ eepromWrites (CY.serialStep ⟨'C', true, 0⟩ (some 'A')).2 = [] := by
  refine ⟨rfl, ?_, rfl⟩
  decide

/-- Claim C3 (amended): in the bistable and three-button sketches every
committed state change writes the new tag to the EEPROM as the very first
event of the transition, before any coil output is applied; the cycle sketch
has no persistent store and performs no write on any transition. -/
theorem claim_C3_amended (s1 : V1.State) (s2 : T3.State) (s3 : CY.State)
    (pos : Char) (now : Nat) :
    (pos ≠ s1.currentState →
      (V1.setValve s1 pos now).2 = Ev.eepromUpdate pos :: V1.pulseValve pos)
    ∧ (pos ≠ s2.currentState →
      (T3.setValve s2 pos now).2 = Ev.eepromUpdate pos :: T3.applyOutputs pos)
    ∧ eepromWrites (CY.setValve s3 pos).2 = [] := by
  refine ⟨fun h => ?_, fun h => ?_, eepromWrites_cy_setValve s3 pos⟩
  · show (if pos ≠ s1.currentState then [Ev.eepromUpdate pos] else [])
        ++ V1.pulseValve pos = _
    rw [if_pos h]
    rfl
  · show (if pos ≠ s2.currentState then [Ev.eepromUpdate pos] else [])
        ++ T3.applyOutputs pos = _
    rw [if_pos h]
    rfl

/-- Witness for claim C3 at a concrete changed transition. -/
theorem claim_C3_witness :
    (V1.setValve ⟨'A', true, true, 0, 0, 0, 'A'⟩ 'B' 1000).2
      = Ev.eepromUpdate 'B' :: V1.pulseValve 'B'
    ∧ (T3.setValve ⟨'A', true, true, true, 0, 0, 0, 0, 'A'⟩ 'B' 1000).2
      = Ev.eepromUpdate 'B' :: T3.applyOutputs 'B'
    ∧ eepromWrites (CY.setValve ⟨'C', true, 0⟩ 'B').2 = [] := by
  have h := claim_C3_amended ⟨'A', true, true, 0, 0, 0, 'A'⟩
    ⟨'A', true, true, true, 0, 0, 0, 0, 'A'⟩ ⟨'C', true, 0⟩ 'B' 1000
  exact ⟨h.1 (by decide), h.2.1 (by decide), h.2.2⟩

/-- Claim C4, counterexample: a C byte sent to the bistable sketch is
silently dropped: no ERR:UNKNOWN response (no response at all) is emitted,
though indeed no state change happens. -/
theorem claim_C4_counterexample :
    serialOuts (V1.serialStep (V1.boot 'A').1 1000 (some 'C')).2 = []
    ∧ (V1.serialStep (V1.boot 'A').1 1000 (some 'C')).1 = (V1.boot 'A').1 := by
  decide

/-- Claim C4 (amended): a byte outside the legal set and distinct from the
question mark causes no state change in any sketch; only the cycle sketch
answers ERR:UNKNOWN, while the bistable and three-button sketches emit no
response at all. -/
theorem claim_C4_amended (c : Char) (now : Nat) (s1 : V1.State) (s2 : T3.State)
    (s3 : CY.State) (hA : c ≠ 'A') (hB : c ≠ 'B') (hQ : c ≠ '?') :
    V1.serialStep s1 now (some c) = (s1, [])
    ∧ (c ≠ 'C' → T3.serialStep s2 now (some c) = (s2, []))
    ∧ (c ≠ 'C' → CY.serialStep s3 (some c)
        = (s3, [Ev.serialOut "ERR:UNKNOWN\n"])) := by
  have h1 : ¬(c = 'A' ∨ c = 'B') := by
    rintro (h | h)
    · exact hA h
    · exact hB h
  refine ⟨?_, fun hC => ?_, fun hC => ?_⟩
  · simp only [V1.serialStep]
    rw [if_neg h1, if_neg hQ]
  · have h2 : ¬(c = 'A' ∨ c = 'B' ∨ c = 'C') := by
      rintro (h | h | h)
      · exact hA h
      · exact hB h
      · exact hC h
    simp only [T3.serialStep]
    rw [if_neg h2, if_neg hQ]
  · have h2 : ¬(c = 'A' ∨ c = 'B' ∨ c = 'C') := by
      rintro (h | h | h)
      · exact hA h
      · exact hB h
      · exact hC h
    simp only [CY.serialStep]
    rw [if_neg h2, if_neg hQ]

/-- Witness for claim C4 at the concrete unknown byte Z. -/
theorem claim_C4_witness :
    V1.serialStep ⟨'A', true, true, 0, 0, 0, 'A'⟩ 7 (some 'Z')
      = (⟨'A', true, true, 0, 0, 0, 'A'⟩, [])
    ∧ T3.serialStep ⟨'C', true, true, true, 0, 0, 0, 0, 'C'⟩ 7 (some 'Z')
      = (⟨'C', true, true, true, 0, 0, 0, 0, 'C'⟩, [])
    ∧ CY.serialStep ⟨'C', true, 0⟩ (some 'Z')
      = (⟨'C', true, 0⟩, [Ev.serialOut "ERR:UNKNOWN\n"]) := by
  have h := claim_C4_amended 'Z' 7 ⟨'A', true, true, 0, 0, 0, 'A'⟩
    ⟨'C', true, true, true, 0, 0, 0, 0, 'C'⟩ ⟨'C', true, 0⟩
    (by decide) (by decide) (by decide)
  exact ⟨h.1, h.2.1 (by decide), h.2.2 (by decide)⟩

/-- Claim C6, counterexample: a protocol command arriving 10 ms after a
committed transition (well inside the 400 ms guard window recorded in
lastChangeTime) is applied by the three-button sketch and acknowledged with
OK; setValve performs no guard check. -/
theorem claim_C6_counterexample :
    usub 1010 1000 < T3.EMI_GUARD_MS
    ∧ (T3.serialStep ⟨'A', true, true, true, 0, 0, 0, 1000, 'A'⟩ 1010
        (some 'B')).1.currentState = 'B'
    ∧ serialOuts (T3.serialStep ⟨'A', true, true, true, 0, 0, 0, 1000, 'A'⟩ 1010
        (some 'B')).2 = ["OK:", lineOf 'B'] := by
  decide

/-- Claim C6 (amended): the transition procedure setValve itself performs no
guard-window check: it always commits the requested state and restamps
lastChangeTime.  The guard window is enforced only inside the button-polling
routine, which inside the guard merely refreshes the stored previous levels
and requests no transition; protocol commands are applied regardless of the
guard. -/
theorem claim_C6_amended (s : T3.State) (pos : Char) (now : Nat)
    (r0 r1 r2 : Bool) :
    (T3.setValve s pos now).1.currentState = pos
    ∧ (T3.setValve s pos now).1.lastChangeTime = now
    ∧ (usub now s.lastChangeTime < T3.EMI_GUARD_MS →
        T3.checkButtons s now r0 r1 r2
          = ({ s with btnPrev0 := r0, btnPrev1 := r1, btnPrev2 := r2 }, [])) := by
  refine ⟨rfl, rfl, fun h => ?_⟩
  unfold T3.checkButtons
  rw [if_pos h]

/-- Witness for claim C6 at a concrete state inside the guard window. -/
theorem claim_C6_witness :
    (T3.setValve ⟨'A', true, true, true, 0, 0, 0, 1000, 'A'⟩ 'B' 1010).1.currentState = 'B'
    ∧ T3.checkButtons ⟨'A', true, true, true, 0, 0, 0, 1000, 'A'⟩ 1010 false false false
      = (⟨'A', false, false, false, 0, 0, 0, 1000, 'A'⟩, []) := by
  have h := claim_C6_amended ⟨'A', true, true, true, 0, 0, 0, 1000, 'A'⟩ 'B' 1010
    false false false
  exact ⟨h.1, h.2.2 (by decide)⟩

/-- Claim C7, counterexample: the cycle sketch never reads the persisted
cell.  Booting it with the legal byte A in the cell still initializes the
controller to Center, not to A. -/
theorem claim_C7_counterexample :
    (CY.boot 'A').1.currentState = 'C' ∧ ('C' : Char) ≠ 'A' := by
  decide

/-- Claim C7 (amended): the bistable sketch boots to the persisted byte when
it is A or B and to A otherwise, the three-button sketch boots to the
persisted byte when it is A, B or C and to C otherwise, and both then drive
their outputs from that state; the decoded state is always legal, never
garbage.  The cycle sketch ignores the persisted cell entirely and always
boots to Center with all outputs low. -/
theorem claim_C7_amended (cell : Char) :
    (V1.boot cell).1.currentState = (if cell = 'A' ∨ cell = 'B' then cell else 'A')
    ∧ V1.legal ((V1.boot cell).1.currentState)
    ∧ runPins allLow (V1.boot cell).2 = allLow
    ∧ (T3.boot cell).1.currentState
        = (if cell = 'A' ∨ cell = 'B' ∨ cell = 'C' then cell else 'C')
    ∧ T3.legal ((T3.boot cell).1.currentState)
    ∧ runPins allLow (T3.boot cell).2 = coilConfig ((T3.boot cell).1.currentState)
    ∧ (CY.boot cell).1.currentState = 'C'
    ∧ runPins allLow (CY.boot cell).2 = allLow :=
  ⟨rfl, v1_boot_legal cell, (v1Clean_boot cell).1, rfl, t3_boot_legal cell,
   t3_boot_pins cell, rfl, rfl⟩

theorem t3_applyOutputs_exclusive_iff (c pos : Char) :
    (allExclusive (coilConfig c) (T3.applyOutputs pos) = true)
      ↔ ¬(c = 'B' ∧ pos = 'A') := by
  by_cases hc : c = 'B'
  · subst hc
    by_cases hp : pos = 'A'
    · subst hp
      refine iff_of_false ?_ ?_
      · decide
      · exact fun h => h ⟨rfl, rfl⟩
    · refine iff_of_true ?_ (fun h => hp h.2)
      unfold T3.applyOutputs
      rw [if_neg hp]
      by_cases hp2 : pos = 'B'
      · rw [if_pos hp2]; decide
      · rw [if_neg hp2]; decide
  · refine iff_of_true ?_ (fun h => hc h.1)
    unfold coilConfig T3.applyOutputs
    by_cases hc2 : c = 'A'
    · rw [if_pos hc2]
      by_cases hp : pos = 'A'
      · rw [if_pos hp]; decide
      · rw [if_neg hp]
        by_cases hp2 : pos = 'B'
        · rw [if_pos hp2]; decide
        · rw [if_neg hp2]; decide
    · rw [if_neg hc2, if_neg hc]
      by_cases hp : pos = 'A'
      · rw [if_pos hp]; decide
      · rw [if_neg hp]
        by_cases hp2 : pos = 'B'
        · rw [if_pos hp2]; decide
        · rw [if_neg hp2]; decide

/-- Claim C1, counterexample: booting the three-button sketch from persisted
state B and then sending the accepted command A produces an instant at which
both coil outputs are driven high: applyOutputs energizes coil A before it
releases coil B. -/
theorem claim_C1_counterexample :
    serialOuts ((T3.boot 'B').2 ++ (T3.serialStep (T3.boot 'B').1 1000 (some 'A')).2)
      = ["READY\n", "OK:", lineOf 'A']
    ∧ allExclusive allLow
        ((T3.boot 'B').2 ++ (T3.serialStep (T3.boot 'B').1 1000 (some 'A')).2)
      = false := by
  decide

/-- Claim C1 (amended): for the bistable and cycle-button sketches, every
boot followed by any input sequence keeps at most one coil driven at every
instant.  For the three-button sketch the pins equal the steady
configuration of the current state after boot and after every loop
iteration, and the Center/rest configuration drives both coils (and the
LED) low; within applyOutputs, run from the steady configuration of any
letter, every instant keeps at most one coil driven except in exactly one
case: applying A from the B configuration (a B-to-A transition), where coil
A is driven high before coil B is released, as the counterexample shows.
Every other transition, A-to-B included (its branch releases coil A before
energizing coil B), is exclusive at every instant. -/
theorem claim_C1_amended (cell : Char) (ins1 : List V1.Input)
    (ins2 : List T3.Input) (ins3 : List CY.Input) (c pos : Char) :
    allExclusive allLow ((V1.boot cell).2 ++ (V1.run (V1.boot cell).1 ins1).2) = true
    ∧ allExclusive allLow ((CY.boot cell).2 ++ (CY.run (CY.boot cell).1 ins3).2) = true
    ∧ runPins allLow ((T3.boot cell).2 ++ (T3.run (T3.boot cell).1 ins2).2)
        = coilConfig ((T3.run (T3.boot cell).1 ins2).1.currentState)
    ∧ ((allExclusive (coilConfig c) (T3.applyOutputs pos) = true)
        ↔ ¬(c = 'B' ∧ pos = 'A'))
    ∧ coilConfig 'C' = allLow := by
  refine ⟨?_, ?_, ?_, t3_applyOutputs_exclusive_iff c pos, rfl⟩
  · rw [allExclusive_append, (v1Clean_boot cell).2, (v1Clean_boot cell).1,
      (v1Clean_run ins1 (V1.boot cell).1).2]
    rfl
  · rw [allExclusive_append]
    have hb : allExclusive allLow (CY.boot cell).2 = true := rfl
    have hr := (cy_run_inv ins3 (CY.boot cell).1 (cy_boot_legal cell)).2.2
    rw [hb]
    have hpins : runPins allLow (CY.boot cell).2
        = coilConfig ((CY.boot cell).1.currentState) := rfl
    rw [hpins, hr]
    rfl
  · rw [runPins_append, t3_boot_pins cell]
    exact (t3_run_inv ins2 (T3.boot cell).1 (t3_boot_legal cell)).2

/-- Claim C9: in each sketch, after boot from any persisted byte and any
sequence of loop iterations with arbitrary button readings and serial bytes,
currentState is a member of that sketch's legal state set. -/
theorem claim_C9 (cell : Char) (ins1 : List V1.Input) (ins2 : List T3.Input)
    (ins3 : List CY.Input) :
    V1.legal ((V1.run (V1.boot cell).1 ins1).1.currentState)
    ∧ T3.legal ((T3.run (T3.boot cell).1 ins2).1.currentState)
    ∧ CY.legal ((CY.run (CY.boot cell).1 ins3).1.currentState) :=
  ⟨v1_run_legal ins1 _ (v1_boot_legal cell),
   (t3_run_inv ins2 _ (t3_boot_legal cell)).1,
   (cy_run_inv ins3 _ (cy_boot_legal cell)).1⟩

/-- Claim C10: in the bistable sketch every transition pulse drives the
commanded coil high for exactly the 150 ms pulse duration, never drives the
opposite coil, and returns both coils and the LED to low before pulseValve
returns; consequently after boot and any run of loop iterations all outputs
are low between transitions. -/
theorem claim_C10 (p : PinState) (pos : Char) (cell : Char)
    (ins : List V1.Input) (h : pos = 'A' ∨ pos = 'B') :
    runPins p (V1.pulseValve pos) = allLow
    ∧ (pos = 'A' →
        highTime (fun q => q.solA) p (V1.pulseValve pos) = V1.PULSE_MS
        ∧ highTime (fun q => q.solB) p (V1.pulseValve pos) = 0)
    ∧ (pos = 'B' →
        highTime (fun q => q.solB) p (V1.pulseValve pos) = V1.PULSE_MS
        ∧ highTime (fun q => q.solA) p (V1.pulseValve pos) = 0)
    ∧ runPins allLow ((V1.boot cell).2 ++ (V1.run (V1.boot cell).1 ins).2) = allLow := by
  have hlast : runPins allLow ((V1.boot cell).2 ++ (V1.run (V1.boot cell).1 ins).2)
      = allLow := by
    rw [runPins_append, (v1Clean_boot cell).1, (v1Clean_run ins (V1.boot cell).1).1]
  rcases h with h | h
  · subst h
    exact ⟨rfl, fun _ => ⟨rfl, rfl⟩, fun hb => absurd hb (by decide), hlast⟩
  · subst h
    exact ⟨rfl, fun hb => absurd hb (by decide), fun _ => ⟨rfl, rfl⟩, hlast⟩

/-- Witness for claim C10 at the concrete pulse to A from a dirty pin
configuration. -/
theorem claim_C10_witness :
    runPins ⟨false, true, true⟩ (V1.pulseValve 'A') = allLow
    ∧ highTime (fun q => q.solA) ⟨false, true, true⟩ (V1.pulseValve 'A') = V1.PULSE_MS := by
  have h := claim_C10 ⟨false, true, true⟩ 'A' 'A' [] (Or.inl rfl)
  exact ⟨h.1, (h.2.1 rfl).1⟩

/-- Claim C5, counterexample: the cycle sketch has no guard window.  From
boot, a press at 1000 ms is accepted (BTN:A, a committed transition); after a
release at 1210 ms, a press at 1250 ms, only 250 ms after that transition and
strictly inside the claimed 400 ms guard interval, is accepted again and
emits BTN:B instead of being ignored. -/
theorem claim_C5_counterexample :
    (CY.checkButton (CY.boot 'C').1 1000 false).1 = ⟨'A', false, 1000⟩
    ∧ serialOuts (CY.checkButton (CY.boot 'C').1 1000 false).2 = ["BTN:", lineOf 'A']
    ∧ (CY.checkButton ⟨'A', false, 1000⟩ 1210 true).1 = ⟨'A', true, 1000⟩
    ∧ serialOuts (CY.checkButton ⟨'A', false, 1000⟩ 1210 true).2 = []
    ∧ usub 1250 1000 < 400
    ∧ serialOuts (CY.checkButton ⟨'A', true, 1000⟩ 1250 false).2 = ["BTN:", lineOf 'B'] := by
  decide

/-- Claim C5 (amended): in the three-button and bistable sketches a poll
strictly inside the guard window only refreshes the stored previous levels
and accepts nothing, and a poll at or after guard expiry accepts a channel
(emitting its BTN line) exactly when the pin reads pressed, the stored level
was released, and more than the debounce interval has elapsed since that
channel's last accepted edge.  The cycle sketch has no guard window at all:
its single button is filtered by the debounce interval only, and an accepted
edge advances the state by the cycle successor. -/
theorem claim_C5_amended (s : T3.State) (now : Nat) (r0 r1 r2 : Bool)
    (v : V1.State) (k : Nat) (q0 q1 : Bool)
    (u : CY.State) (m : Nat) (r : Bool) :
    (usub now s.lastChangeTime < T3.EMI_GUARD_MS →
      T3.checkButtons s now r0 r1 r2
        = ({ s with btnPrev0 := r0, btnPrev1 := r1, btnPrev2 := r2 }, []))
    ∧ (¬ usub now s.lastChangeTime < T3.EMI_GUARD_MS →
        ((lineOf 'A' ∈ serialOuts (T3.checkButtons s now r0 r1 r2).2
            ↔ r0 = false ∧ s.btnPrev0 = true ∧ usub now s.btnLastPress0 > T3.DEBOUNCE_MS)
          ∧ (lineOf 'B' ∈ serialOuts (T3.checkButtons s now r0 r1 r2).2
            ↔ r1 = false ∧ s.btnPrev1 = true ∧ usub now s.btnLastPress1 > T3.DEBOUNCE_MS)
          ∧ (lineOf 'C' ∈ serialOuts (T3.checkButtons s now r0 r1 r2).2
            ↔ r2 = false ∧ s.btnPrev2 = true ∧ usub now s.btnLastPress2 > T3.DEBOUNCE_MS)))
    ∧ (usub k v.lastChangeTime < V1.EMI_GUARD_MS →
      V1.checkButtons v k q0 q1 = ({ v with btnPrev0 := q0, btnPrev1 := q1 }, []))
    ∧ (¬ usub k v.lastChangeTime < V1.EMI_GUARD_MS →
        ((lineOf 'A' ∈ serialOuts (V1.checkButtons v k q0 q1).2
            ↔ q0 = false ∧ v.btnPrev0 = true ∧ usub k v.btnLastPress0 > V1.DEBOUNCE_MS)
          ∧ (lineOf 'B' ∈ serialOuts (V1.checkButtons v k q0 q1).2
            ↔ q1 = false ∧ v.btnPrev1 = true ∧ usub k v.btnLastPress1 > V1.DEBOUNCE_MS)))
    ∧ (lineOf (CY.nextState u.currentState) ∈ serialOuts (CY.checkButton u m r).2
        ↔ r = false ∧ u.lastBtnState = true ∧ usub m u.lastBtnTime > CY.DEBOUNCE_MS)
    ∧ (CY.checkButton u m r).1.currentState
        = (if r = false ∧ u.lastBtnState = true ∧ usub m u.lastBtnTime > CY.DEBOUNCE_MS
           then CY.nextState u.currentState else u.currentState) := by
  have sAB : lineOf 'A' ≠ lineOf 'B' := by decide
  have sAC : lineOf 'A' ≠ lineOf 'C' := by decide
  have sBA : lineOf 'B' ≠ lineOf 'A' := by decide
  have sBC : lineOf 'B' ≠ lineOf 'C' := by decide
  have sCA : lineOf 'C' ≠ lineOf 'A' := by decide
  have sCB : lineOf 'C' ≠ lineOf 'B' := by decide
  have bA : lineOf 'A' ≠ "BTN:" := by decide
  have bB : lineOf 'B' ≠ "BTN:" := by decide
  have bC : lineOf 'C' ≠ "BTN:" := by decide
  refine ⟨fun h => ?_, fun h => ?_, fun h => ?_, fun h => ?_, ?_,
    cy_checkButton_currentState u m r⟩
  · unfold T3.checkButtons
    rw [if_pos h]
  · rw [t3_checkButtons_serialOuts s now r0 r1 r2 h]
    refine ⟨?_, ?_, ?_⟩
    · simp [List.mem_append, mem_ite_btn, sAB, sAC, bA]
    · simp [List.mem_append, mem_ite_btn, sBA, sBC, bB]
    · simp [List.mem_append, mem_ite_btn, sCA, sCB, bC]
  · unfold V1.checkButtons
    rw [if_pos h]
  · rw [v1_checkButtons_serialOuts v k q0 q1 h]
    refine ⟨?_, ?_⟩
    · simp [List.mem_append, mem_ite_btn, sAB, bA]
    · simp [List.mem_append, mem_ite_btn, sBA, bB]
  · rw [cy_checkButton_serialOuts u m r]
    simp [mem_ite_btn]

/-- Witness for claim C5 at concrete polls inside the guard window of the
three-button and bistable sketches. -/
theorem claim_C5_witness :
    T3.checkButtons ⟨'C', true, true, true, 0, 0, 0, 900, 'C'⟩ 1000 false false false
      = (⟨'C', false, false, false, 0, 0, 0, 900, 'C'⟩, [])
    ∧ V1.checkButtons ⟨'A', true, true, 0, 0, 900, 'A'⟩ 1000 false false
      = (⟨'A', false, false, 0, 0, 900, 'A'⟩, []) := by
  have h := claim_C5_amended ⟨'C', true, true, true, 0, 0, 0, 900, 'C'⟩ 1000
    false false false ⟨'A', true, true, 0, 0, 900, 'A'⟩ 1000 false false
    ⟨'C', true, 0⟩ 0 true
  exact ⟨h.1 (by decide), h.2.2.1 (by decide)⟩

/-- Claim C8: re-sending the command for the current state is idempotent in
every sketch: it answers OK with that state, leaves currentState and the
EEPROM cell untouched, performs no EEPROM update call at all, and re-drives
the outputs so that the pin configuration ends exactly where it stood (the
steady configuration of the state; all-low for the bistable sketch, whose
pulse ends with everything released). -/
theorem claim_C8 (c1 c2 c3 : Char) (now : Nat)
    (s1 : V1.State) (s2 : T3.State) (s3 : CY.State)
    (h1 : V1.legal c1) (e1 : s1.currentState = c1)
    (h2 : T3.legal c2) (e2 : s2.currentState = c2)
    (h3 : CY.legal c3) (e3 : s3.currentState = c3) :
    ((V1.serialStep s1 now (some c1)).1.currentState = c1
      ∧ (V1.serialStep s1 now (some c1)).1.eeprom = s1.eeprom
      ∧ eepromWrites (V1.serialStep s1 now (some c1)).2 = []
      ∧ serialOuts (V1.serialStep s1 now (some c1)).2 = ["OK:", lineOf c1]
      ∧ runPins allLow (V1.serialStep s1 now (some c1)).2 = allLow)
    ∧ ((T3.serialStep s2 now (some c2)).1.currentState = c2
      ∧ (T3.serialStep s2 now (some c2)).1.eeprom = s2.eeprom
      ∧ eepromWrites (T3.serialStep s2 now (some c2)).2 = []
      ∧ serialOuts (T3.serialStep s2 now (some c2)).2 = ["OK:", lineOf c2]
      ∧ runPins (coilConfig c2) (T3.serialStep s2 now (some c2)).2 = coilConfig c2)
    ∧ ((CY.serialStep s3 (some c3)).1.currentState = c3
      ∧ eepromWrites (CY.serialStep s3 (some c3)).2 = []
      ∧ serialOuts (CY.serialStep s3 (some c3)).2 = ["OK:", lineOf c3]
      ∧ runPins (coilConfig c3) (CY.serialStep s3 (some c3)).2 = coilConfig c3) := by
  refine ⟨?_, ?_, ?_⟩
  · subst e1
    have hne : ¬(s1.currentState ≠ s1.currentState) := fun hh => hh rfl
    have h1x : s1.currentState = 'A' ∨ s1.currentState = 'B' := h1
    simp only [V1.serialStep]
    rw [if_pos h1x]
    simp only [V1.setValve]
    rw [if_neg hne, if_neg hne]
    refine ⟨by trivial, by trivial, ?_, ?_, ?_⟩
    · rw [List.nil_append, eepromWrites_append, eepromWrites_pulseValve]
      rfl
    · rw [List.nil_append, serialOuts_append, serialOuts_pulseValve]
      rfl
    · rw [List.nil_append, runPins_append, (v1Clean_pulseValve _).1]
      rfl
  · subst e2
    have hne : ¬(s2.currentState ≠ s2.currentState) := fun hh => hh rfl
    have h2x : s2.currentState = 'A' ∨ s2.currentState = 'B' ∨ s2.currentState = 'C' := h2
    simp only [T3.serialStep]
    rw [if_pos h2x]
    simp only [T3.setValve]
    rw [if_neg hne, if_neg hne]
    refine ⟨by trivial, by trivial, ?_, ?_, ?_⟩
    · rw [List.nil_append, eepromWrites_append, eepromWrites_applyOutputs]
      rfl
    · rw [List.nil_append, serialOuts_append, serialOuts_applyOutputs]
      rfl
    · rw [List.nil_append, runPins_append, t3_runPins_applyOutputs]
      rfl
  · subst e3
    have h3x : s3.currentState = 'A' ∨ s3.currentState = 'B' ∨ s3.currentState = 'C' := h3
    simp only [CY.serialStep]
    rw [if_pos h3x]
    dsimp only
    refine ⟨cy_setValve_currentState _ h3, ?_, ?_, ?_⟩
    · rw [eepromWrites_append, eepromWrites_cy_setValve]
      rfl
    · rw [serialOuts_append, serialOuts_cy_setValve,
        cy_setValve_currentState _ h3]
      rfl
    · rw [runPins_append, (cyMoves_setValve s3 h3 h3).1]
      rfl

/-- Witness for claim C8 re-sending the current state in each sketch. -/
theorem claim_C8_witness :
    (V1.serialStep ⟨'A', true, true, 0, 0, 0, 'A'⟩ 9 (some 'A')).1.currentState = 'A'
    ∧ serialOuts (V1.serialStep ⟨'A', true, true, 0, 0, 0, 'A'⟩ 9 (some 'A')).2
        = ["OK:", lineOf 'A']
    ∧ runPins (coilConfig 'C') (CY.serialStep ⟨'C', true, 0⟩ (some 'C')).2
        = coilConfig 'C' := by
  have h := claim_C8 'A' 'B' 'C' 9 ⟨'A', true, true, 0, 0, 0, 'A'⟩
    ⟨'B', true, true, true, 0, 0, 0, 0, 'B'⟩ ⟨'C', true, 0⟩
    (Or.inl rfl) rfl (Or.inr (Or.inl rfl)) rfl (Or.inr (Or.inr rfl)) rfl
  exact ⟨h.1.1, h.1.2.2.2.1, h.2.2.2.2.2⟩
